import Mathlib

/-!
Shallow embedding of the per-connection session orchestrator of
`src/backend/orchestrator.py` (class `Orchestrator`), and proofs of the
behavioural claims about it.

Modelling conventions:
- Timestamps (`time.time()`) are `Nat` time-units; the session starts at 0.
- The client websocket send (`_send_ios`) may fail; we model the transport
  outcome as a boolean `iosOk` parameter, and the wrapper `send_ios`
  swallows the failure (delivers nothing) exactly as the `try/except: pass`
  in the source does.
- `json.loads` of an upstream raw message may raise; a raw upstream message
  is therefore `Option RtInEvent`, `none` standing for a message whose
  processing raises an exception.
- The external scene-analysis call `analyze_scene(frame_b64, scenario_state,
  recent_transcript)` is a parameter of type
  `String → String → String → Option String`; a raised exception or a
  falsy result is `none` / the empty string, as in the source.
- Each loop body is modelled as a pure step function on the session state,
  returning the list of events sent upstream (`RtEvent`) and the list of
  messages delivered to the client (`IosMsg`), in order.
-/

/-- Mutable per-session state of `Orchestrator.__init__`
(`orchestrator.py` lines 31-50). The `_shutdown` flag and the websocket
handles are not part of the modelled state: the step functions below model
one iteration of each running (non-shutdown) loop. -/
structure OrchState where
  latest_frame_b64 : Option String
  recent_user_transcript : String
  scenario_state : String
  scenario_severity : String
  response_in_progress : Bool
  last_scene_observation : String
  last_user_speech_time : Nat
  last_agent_speech_time : Nat
  follow_up_count : Nat
  current_assistant_text : String
  deriving Repr, DecidableEq

/-- Initial state built by `Orchestrator.__init__`: no frame, empty
transcripts, scenario NONE with severity minor, both speech timestamps at
session start (time 0), no follow-ups yet. -/
def initState : OrchState where
  latest_frame_b64 := none
  recent_user_transcript := ""
  scenario_state := "NONE"
  scenario_severity := "minor"
  response_in_progress := false
  last_scene_observation := ""
  last_user_speech_time := 0
  last_agent_speech_time := 0
  follow_up_count := 0
  current_assistant_text := ""

/-- Events the orchestrator sends upstream on the realtime websocket
(`rt_ws.send`), keeping only the fields the claims are about. -/
inductive RtEvent where
  | inputAudioAppend (audio : String)
  | itemCreateUserText (text : String)
  | functionCallOutput (call_id : String) (output : String)
  | responseCreate
  deriving Repr, DecidableEq

/-- Messages the orchestrator delivers to the iOS client via `_send_ios`. -/
inductive IosMsg where
  | audio (data : String)
  | transcriptAssistantDelta (delta : String)
  | transcriptDoneAssistant
  | transcriptUser (text : String)
  | interrupt
  | sceneUpdate (observation : String)
  | scenarioUpdate (scenario severity summary body_region : String)
  | tool (nm : String) (params : List (String × String))
  deriving Repr, DecidableEq

/-- Wrapper around the client send, `Orchestrator._send_ios`
(lines 431-435): the send is tried and every exception is swallowed, so a
failing client transport (`iosOk = false`) delivers nothing and never
raises into the caller. -/
def send_ios (iosOk : Bool) (msg : IosMsg) : List IosMsg :=
  if iosOk then [msg] else []

/-- A completed function-call item dispatched by the relay
(`response.output_item.done` with `item.type == "function_call"`).
`arguments` is the result of `json.loads` on the arguments string:
`none` when the string is not valid JSON (a `JSONDecodeError`), otherwise
the parsed argument mapping, modelled as an association list. -/
structure ToolCallItem where
  call_id : String
  nm : String
  arguments : Option (List (String × String))
  deriving Repr, DecidableEq

/-- Python `str.upper()` applied to the scenario tag: uppercase every
character. Written as a structural map over the characters so that it
reduces by kernel computation (it agrees with `String.toUpper`). -/
def strUpper (s : String) : String := ⟨s.data.map Char.toUpper⟩

/-- Python `args.get(key, default)` on the parsed argument mapping. -/
def argGet (args : List (String × String)) (key default : String) : String :=
  match args.find? (fun p => p.1 == key) with
  | some p => p.2
  | none => default

/-- The literal string `json.dumps({"status": "ok"})` placed in the
acknowledgment payload. -/
def okStatusJson : String := "\x7b\"status\": \"ok\"\x7d"

/-- Tool Call Router, `Orchestrator._handle_tool_call` (lines 373-422):
parse arguments (falling back to an empty mapping on a decode error); on
`set_scenario` update the scenario state/severity and notify the client;
on any other name forward the tool verbatim to the client; in all cases
send a `function_call_output` acknowledgment correlated by `call_id`,
clear `response_in_progress`, and send one `response.create`. -/
def handle_tool_call (iosOk : Bool) (s : OrchState) (item : ToolCallItem) :
    OrchState × List RtEvent × List IosMsg :=
  let args := item.arguments.getD []
  let (s1, ios1) :=
    if item.nm == "set_scenario" then
      let scenario := argGet args "scenario" "none"
      let severity := argGet args "severity" "minor"
      let summary := argGet args "summary" ""
      let body_region := argGet args "body_region" ""
      ({ s with scenario_state := strUpper scenario, scenario_severity := severity },
       send_ios iosOk (.scenarioUpdate scenario severity summary body_region))
    else
      (s, send_ios iosOk (.tool item.nm args))
  ({ s1 with response_in_progress := false },
   [RtEvent.functionCallOutput item.call_id okStatusJson, RtEvent.responseCreate],
   ios1)

/-- Upstream events consumed by the relay loop, keyed by the `type` field
of the decoded JSON (lines 145-204). `outputItemDone` carries
`some item` when the contained item has `type == "function_call"`, else
`none`. `unknown` is any other `type` string. -/
inductive RtInEvent where
  | responseAudioDelta (delta : String)
  | responseCreated
  | responseDone
  | audioTranscriptDelta (delta : String)
  | audioTranscriptDone
  | inputAudioTranscriptionCompleted (transcript : String)
  | speechStarted
  | outputItemDone (item : Option ToolCallItem)
  | errorEvent (code : String)
  | sessionCreated
  | sessionUpdated
  | unknown (t : String)
  deriving Repr, DecidableEq

/-- Body of the Upstream Event Relay for one decoded event,
`Orchestrator._realtime_to_ios_loop` (lines 145-204): forward audio and
transcript deltas to the client, track `response_in_progress` and the
speech timestamps, reset `follow_up_count` on user speech, dispatch
function calls to the Tool Call Router, log-only for errors and session
acks, and ignore unknown event kinds. `now` is the value of `time.time()`
at this iteration. -/
def process_event (iosOk : Bool) (now : Nat) (s : OrchState) (e : RtInEvent) :
    OrchState × List RtEvent × List IosMsg :=
  match e with
  | .responseAudioDelta d => (s, [], send_ios iosOk (.audio d))
  | .responseCreated => ({ s with response_in_progress := true }, [], [])
  | .responseDone =>
      ({ s with response_in_progress := false, last_agent_speech_time := now }, [], [])
  | .audioTranscriptDelta d =>
      ({ s with current_assistant_text := s.current_assistant_text ++ d }, [],
       send_ios iosOk (.transcriptAssistantDelta d))
  | .audioTranscriptDone =>
      let s1 := if s.current_assistant_text ≠ "" then
        { s with current_assistant_text := "" } else s
      (s1, [], send_ios iosOk .transcriptDoneAssistant)
  | .inputAudioTranscriptionCompleted t =>
      ({ s with recent_user_transcript := t, last_user_speech_time := now,
                follow_up_count := 0 }, [],
       send_ios iosOk (.transcriptUser t))
  | .speechStarted =>
      ({ s with response_in_progress := false, last_user_speech_time := now,
                follow_up_count := 0, current_assistant_text := "" }, [],
       send_ios iosOk .interrupt)
  | .outputItemDone item =>
      match item with
      | some tc => handle_tool_call iosOk s tc
      | none => (s, [], [])
  | .errorEvent _ => (s, [], [])
  | .sessionCreated => (s, [], [])
  | .sessionUpdated => (s, [], [])
  | .unknown _ => (s, [], [])

/-- Upstream Event Relay over a stream of timestamped raw messages,
`Orchestrator._realtime_to_ios_loop` (lines 136-209). A raw message is
`none` when handling it raises an exception (for instance `json.loads`
fails). The single `try/except` in the source wraps the whole `async for`
loop, so the first such exception is caught OUTSIDE the loop: it is
logged and the relay ends, leaving the remaining messages unprocessed. -/
def relay_loop (iosOk : Bool) (s : OrchState) :
    List (Nat × Option RtInEvent) → OrchState × List RtEvent × List IosMsg
  | [] => (s, [], [])
  | (now, raw) :: rest =>
    match raw with
    | none => (s, [], [])
    | some e =>
      let (s1, rt1, ios1) := process_event iosOk now s e
      let (s2, rt2, ios2) := relay_loop iosOk s1 rest
      (s2, rt1 ++ rt2, ios1 ++ ios2)

/-- Modelled from the spec: "Exceptions while processing one event must not
abort the relay; they are logged and the loop continues to the next
event." The per-event-fault-tolerant relay the spec describes: a raw
message whose processing raises is skipped and the loop continues. Written
for comparison with `relay_loop`, which is the source behaviour. -/
def relay_loop_spec (iosOk : Bool) (s : OrchState) :
    List (Nat × Option RtInEvent) → OrchState × List RtEvent × List IosMsg
  | [] => (s, [], [])
  | (now, raw) :: rest =>
    match raw with
    | none => relay_loop_spec iosOk s rest
    | some e =>
      let (s1, rt1, ios1) := process_event iosOk now s e
      let (s2, rt2, ios2) := relay_loop_spec iosOk s1 rest
      (s2, rt1 ++ rt2, ios1 ++ ios2)

/-- Messages arriving from the iOS client, keyed by their `type` field
(lines 116-128). `other` is any unknown kind, ignored by the loop. -/
inductive IosInMsg where
  | audio (data : String)
  | frame (data : String)
  | other (t : String)
  deriving Repr, DecidableEq

/-- Body of the Client Inbound Relay for one message,
`Orchestrator._ios_to_realtime_loop` (lines 111-132): `audio` is forwarded
upstream as an `input_audio_buffer.append`, `frame` overwrites
`latest_frame_b64`, anything else is ignored. -/
def ios_handle (s : OrchState) (m : IosInMsg) : OrchState × List RtEvent :=
  match m with
  | .audio d => (s, [RtEvent.inputAudioAppend d])
  | .frame d => ({ s with latest_frame_b64 := some d }, [])
  | .other _ => (s, [])

/-- Client Inbound Relay over a message sequence: iterate `ios_handle`. -/
def ios_run (s : OrchState) : List IosInMsg → OrchState × List RtEvent
  | [] => (s, [])
  | m :: rest =>
    let (s1, rt1) := ios_handle s m
    let (s2, rt2) := ios_run s1 rest
    (s2, rt1 ++ rt2)

/-- The data of the most recently received `frame` message in a sequence,
starting from a current slot value: later frames overwrite earlier ones. -/
def lastFrame : List IosInMsg → Option String → Option String
  | [], cur => cur
  | .frame d :: rest, _ => lastFrame rest (some d)
  | .audio _ :: rest, cur => lastFrame rest cur
  | .other _ :: rest, cur => lastFrame rest cur

/-- Python truthiness of the `str | None` frame slot: `None` and the empty
string are falsy (`if not self.latest_frame_b64: continue`). -/
def frameTruthy : Option String → Bool
  | none => false
  | some f => f ≠ ""

/-- Python slicing `s[:50]`: the first `n` characters. Structural over the
character list so it reduces by kernel computation (agrees with
`String.take`). -/
def strTake (n : Nat) (s : String) : String := ⟨s.data.take n⟩

/-- Python `str.lower()`: lowercase every character (agrees with
`String.toLower`). -/
def strLower (s : String) : String := ⟨s.data.map Char.toLower⟩

/-- Python `str.strip()`: drop leading and trailing whitespace (agrees
with `String.trim`). -/
def strStrip (s : String) : String :=
  ⟨((s.data.dropWhile Char.isWhitespace).reverse.dropWhile
      Char.isWhitespace).reverse⟩

/-- Scene-observation similarity, `Orchestrator._is_similar`
(lines 426-429): the previous observation being empty is never similar;
otherwise compare the first 50 characters, lowered then stripped. -/
def is_similar (new old : String) : Bool :=
  if old = "" then false
  else (strStrip (strLower (strTake 50 new)) == strStrip (strLower (strTake 50 old)))

/-- One tick of the Scene Analysis Trigger,
`Orchestrator._scene_analysis_loop` body (lines 216-263): skip when no
frame is buffered or a response is in progress; call the external
`analyze_scene` on the buffered frame with the scenario state and recent
transcript as context; skip on no/empty observation or on a duplicate of
the previous observation; otherwise store it, inject it upstream as a
user-role `conversation.item.create` WITHOUT a `response.create`, and
forward it to the client. `analyze` returning `none` also covers an
exception from the external call, which the inner `try` logs and skips. -/
def scene_tick (iosOk : Bool) (analyze : String → String → String → Option String)
    (s : OrchState) : OrchState × List RtEvent × List IosMsg :=
  if frameTruthy s.latest_frame_b64 = false then (s, [], [])
  else if s.response_in_progress then (s, [], [])
  else
    match analyze (s.latest_frame_b64.getD "") s.scenario_state
        s.recent_user_transcript with
    | none => (s, [], [])
    | some observation =>
      if observation = "" then (s, [], [])
      else if is_similar observation s.last_scene_observation then (s, [], [])
      else
        ({ s with last_scene_observation := observation },
         [RtEvent.itemCreateUserText ("[SCENE UPDATE] " ++ observation)],
         send_ios iosOk (.sceneUpdate observation))

/-- A run of Scene Analysis ticks, one external analysis function per tick
(the external service may answer differently each time). Returns the final
state and the list of observations actually injected upstream, in order. -/
def scene_run (iosOk : Bool) (s : OrchState) :
    List (String → String → String → Option String) → OrchState × List String
  | [] => (s, [])
  | a :: rest =>
    let r := scene_tick iosOk a s
    let injected : List String :=
      match r.2.1 with
      | [] => []
      | _ => [r.1.last_scene_observation]
    let (s2, obs2) := scene_run iosOk r.1 rest
    (s2, injected ++ obs2)

/-- Follow-up prompt builder, `Orchestrator._build_follow_up_prompt`
(lines 341-369): a phrasing ladder per scenario kind, indexed by
`min(follow_up_count, len(prompts) - 1)`. -/
def build_follow_up_prompt (s : OrchState) (elapsed : String) : String :=
  let base := "[FOLLOW UP] The user has been quiet for " ++ elapsed ++ "."
  let prompts :=
    if s.scenario_state = "CPR" then
      [base ++ " They\x27re doing CPR. Give a brief word of encouragement or ask if they need to switch.",
       base ++ " Check if they\x27re still doing compressions and if someone else can take over.",
       base ++ " Ask if help has arrived or if they need anything."]
    else if s.scenario_state = "BLEEDING" then
      [base ++ " They\x27re applying pressure to a wound. Ask if the bleeding is slowing down.",
       base ++ " Check if they\x27re still applying pressure and if help is on the way.",
       base ++ " Ask if the situation has changed."]
    else if s.scenario_state = "CHOKING" then
      [base ++ " They\x27re helping someone who was choking. Ask if the obstruction cleared.",
       base ++ " Check if the person can breathe now.",
       base ++ " Ask if the situation has changed."]
    else
      [base ++ " Check in briefly — ask if they need help with anything."]
  prompts.getD (min s.follow_up_count (prompts.length - 1)) ""

/-- One tick of the Follow-up Scheduler, `Orchestrator._follow_up_loop`
body (lines 286-336): skip when a response is in progress, the scenario is
inactive (NONE, RESOLVED, MINOR_INJURY), the severity is minor, or three
follow-ups are pending; otherwise require silence of at least 30 time-units
(45 after the first follow-up) and at least 15 time-units since the agent
last spoke; then inject the context-aware prompt as a user-role
`conversation.item.create` followed by one `response.create`, increment
`follow_up_count`, and move `last_agent_speech_time` to now. -/
def follow_up_tick (now : Nat) (s : OrchState) : OrchState × List RtEvent :=
  if s.response_in_progress then (s, [])
  else if s.scenario_state = "NONE" ∨ s.scenario_state = "RESOLVED" ∨
      s.scenario_state = "MINOR_INJURY" then (s, [])
  else if s.scenario_severity == "minor" then (s, [])
  else if s.follow_up_count ≥ 3 then (s, [])
  else
    let silence_duration := now - s.last_user_speech_time
    let since_agent_spoke := now - s.last_agent_speech_time
    let threshold : Nat := if s.follow_up_count == 0 then 30 else 45
    if silence_duration < threshold then (s, [])
    else if since_agent_spoke < 15 then (s, [])
    else
      let prompt := build_follow_up_prompt s (toString silence_duration ++ "s")
      ({ s with follow_up_count := s.follow_up_count + 1,
                last_agent_speech_time := now },
       [RtEvent.itemCreateUserText prompt, RtEvent.responseCreate])

/-- One atomic scheduling step of the session: some activity runs one
iteration of its loop body. The cooperative scheduler interleaves these
arbitrarily; `iosOk` is whether the client send succeeds during that
iteration. -/
inductive OrchAction where
  | clientMsg (m : IosInMsg)
  | upstreamEvent (iosOk : Bool) (now : Nat) (e : RtInEvent)
  | sceneTick (iosOk : Bool) (analyze : String → String → String → Option String)
  | followUpTick (now : Nat)

/-- State transition of one scheduling step. -/
def stepState (s : OrchState) : OrchAction → OrchState
  | .clientMsg m => (ios_handle s m).1
  | .upstreamEvent iosOk now e => (process_event iosOk now s e).1
  | .sceneTick iosOk a => (scene_tick iosOk a s).1
  | .followUpTick now => (follow_up_tick now s).1

/-- Session states reachable from the initial state by any interleaving of
loop-body steps. -/
inductive Reachable : OrchState → Prop where
  | start : Reachable initState
  | next {s : OrchState} (a : OrchAction) : Reachable s → Reachable (stepState s a)

/-- Claim C1: for every tool invocation dispatched to the Tool Call Router
(any tool name, including set_scenario and unrecognized names), the router
sends exactly one acknowledgment upstream (a function_call_output item
correlated by the call identifier, with output status ok), then sets
response_in_progress to false, and sends exactly one response.create
upstream. -/
theorem tool_call_always_acks_once_then_continues
    (iosOk : Bool) (s : OrchState) (item : ToolCallItem) :
    (handle_tool_call iosOk s item).2.1 =
      [RtEvent.functionCallOutput item.call_id okStatusJson, RtEvent.responseCreate]
    ∧ ((handle_tool_call iosOk s item).1).response_in_progress = false := by
  unfold handle_tool_call
  split <;> simp

/-- Claim C8: for every tool-call item whose arguments string is not valid
JSON (modelled as `arguments = none`), the Tool Call Router proceeds with
an empty argument mapping — behaving exactly as if the arguments parsed to
the empty mapping — and still completes the call: acknowledgment and
continuation are sent, so argument parse failure is never fatal. -/
theorem malformed_tool_args_fall_back_to_empty_mapping
    (iosOk : Bool) (s : OrchState) (cid nm : String) :
    handle_tool_call iosOk s ⟨cid, nm, none⟩ = handle_tool_call iosOk s ⟨cid, nm, some []⟩
    ∧ (handle_tool_call iosOk s ⟨cid, nm, none⟩).2.1 =
      [RtEvent.functionCallOutput cid okStatusJson, RtEvent.responseCreate] := by
  constructor
  · rfl
  · exact (tool_call_always_acks_once_then_continues iosOk s ⟨cid, nm, none⟩).1

/-- Claim C9: every message sent to the client goes through `_send_ios`,
which swallows all exceptions: a failing client transport delivers nothing
and never raises into the calling activity. In particular the Tool Call
Router and the Upstream Event Relay compute the same state and the same
upstream events whether the client send succeeds or fails, and when the
client notification of a tool call fails the upstream acknowledgment and
continuation request are still sent. -/
theorem client_send_failure_never_escapes :
    (∀ m : IosMsg, send_ios false m = [])
    ∧ (∀ (s : OrchState) (item : ToolCallItem),
        (handle_tool_call false s item).1 = (handle_tool_call true s item).1
        ∧ (handle_tool_call false s item).2.1 = (handle_tool_call true s item).2.1)
    ∧ (∀ (now : Nat) (s : OrchState) (e : RtInEvent),
        (process_event false now s e).1 = (process_event true now s e).1
        ∧ (process_event false now s e).2.1 = (process_event true now s e).2.1)
    ∧ (∀ (s : OrchState) (item : ToolCallItem),
        (handle_tool_call false s item).2.1 =
          [RtEvent.functionCallOutput item.call_id okStatusJson, RtEvent.responseCreate]) := by
  refine ⟨fun m => rfl, fun s item => ?_, fun now s e => ?_, fun s item =>
    (tool_call_always_acks_once_then_continues false s item).1⟩
  · unfold handle_tool_call
    split <;> simp
  · cases e with
    | outputItemDone item =>
      cases item with
      | none => exact ⟨rfl, rfl⟩
      | some tc =>
        simp only [process_event]
        unfold handle_tool_call
        split <;> simp
    | _ => exact ⟨rfl, rfl⟩

/-- Claim C2 counterexample: a stream whose first raw message raises during
processing, followed by a valid user-transcription event. The source relay
(`relay_loop`) catches the exception outside the `async for` loop and
ends, so the transcription event is never processed (the stored user
transcript stays empty), while the per-event-fault-tolerant relay the
claim describes (`relay_loop_spec`) would continue and record it. -/
theorem relay_event_exception_counterexample :
    (relay_loop true initState
      [(0, none),
       (1, some (RtInEvent.inputAudioTranscriptionCompleted "hi"))]).1.recent_user_transcript
      = ""
    ∧ (relay_loop_spec true initState
      [(0, none),
       (1, some (RtInEvent.inputAudioTranscriptionCompleted "hi"))]).1.recent_user_transcript
      = "hi" := by
  exact ⟨rfl, rfl⟩

/-- Claim C2 amended: an exception raised while processing any single
upstream event ends the Upstream Event Relay. The exception is caught (and
logged) at the loop boundary, so it does not propagate out of the
activity, but none of the remaining events in the stream are processed:
the relay stops with the state as it was before the failing event and
emits nothing further. -/
theorem relay_ends_at_first_event_exception
    (iosOk : Bool) (s : OrchState) (now : Nat)
    (rest : List (Nat × Option RtInEvent)) :
    relay_loop iosOk s ((now, none) :: rest) = (s, [], []) := rfl

/-- Claim C7: over any sequence of client messages, `latest_frame_b64`
holds exactly the data of the most recently received frame (single-slot
overwrite, no queueing), and the Scene Analysis Trigger reads only that
most recent frame: its tick depends on the analysis function only through
its value at the currently buffered frame (with the current scenario state
and recent transcript), so earlier frames are unobservable. -/
theorem latest_frame_single_slot_overwrite :
    (∀ (s : OrchState) (msgs : List IosInMsg),
        (ios_run s msgs).1.latest_frame_b64 = lastFrame msgs s.latest_frame_b64)
    ∧ (∀ (iosOk : Bool) (s : OrchState)
        (a1 a2 : String → String → String → Option String),
        (∀ f, s.latest_frame_b64 = some f →
          a1 f s.scenario_state s.recent_user_transcript
            = a2 f s.scenario_state s.recent_user_transcript) →
        scene_tick iosOk a1 s = scene_tick iosOk a2 s) := by
  constructor
  · intro s msgs
    induction msgs generalizing s with
    | nil => rfl
    | cons m rest ih =>
      cases m with
      | audio d => simpa [ios_run, ios_handle, lastFrame] using ih s
      | frame d => simpa [ios_run, ios_handle, lastFrame] using ih _
      | other t => simpa [ios_run, ios_handle, lastFrame] using ih s
  · intro iosOk s a1 a2 h
    cases hf : s.latest_frame_b64 with
    | none => simp [scene_tick, frameTruthy, hf]
    | some f =>
      unfold scene_tick
      rw [hf]
      simp only [Option.getD_some]
      rw [h f hf]

/-- Claim C7 witness: concrete instances of both conjuncts — two frames
overwrite into the newest one, and a scene tick cannot distinguish two
analysis functions agreeing on the buffered frame. -/
theorem latest_frame_single_slot_overwrite_witness :
    (ios_run initState [IosInMsg.frame "f1", IosInMsg.frame "f2"]).1.latest_frame_b64
      = lastFrame [IosInMsg.frame "f1", IosInMsg.frame "f2"] initState.latest_frame_b64
    ∧ scene_tick true (fun _ _ _ => some "obs")
        { initState with latest_frame_b64 := some "f2" }
      = scene_tick true (fun f _ _ => if f = "f1" then none else some "obs")
        { initState with latest_frame_b64 := some "f2" } :=
  ⟨latest_frame_single_slot_overwrite.1 initState _,
   latest_frame_single_slot_overwrite.2 true _ _ _
     (by intro f hf; cases hf; rfl)⟩

/-- Claim C3: on a Follow-up Scheduler tick with no response in progress,
scenario CPR, follow_up_count 0, silence since last user speech of at
least 30 time-units, and at least 15 time-units since the agent last
spoke: with severity critical a follow-up (context message plus one
response.create) is injected upstream; on an identical tick with severity
minor, nothing is injected. -/
theorem cpr_critical_follow_up_fires_minor_does_not
    (now : Nat) (s : OrchState)
    (h1 : s.response_in_progress = false)
    (h2 : s.scenario_state = "CPR")
    (h3 : s.follow_up_count = 0)
    (h4 : 30 ≤ now - s.last_user_speech_time)
    (h5 : 15 ≤ now - s.last_agent_speech_time) :
    (s.scenario_severity = "critical" →
      (follow_up_tick now s).2 =
        [RtEvent.itemCreateUserText
          (build_follow_up_prompt s (toString (now - s.last_user_speech_time) ++ "s")),
         RtEvent.responseCreate])
    ∧ (s.scenario_severity = "minor" → (follow_up_tick now s).2 = []) := by
  have h4' : ¬ (now - s.last_user_speech_time < 30) := by omega
  have h5' : ¬ (now - s.last_agent_speech_time < 15) := by omega
  constructor
  · intro hc
    simp +decide [follow_up_tick, h1, h2, h3, hc, h4', h5']
  · intro hm
    simp +decide [follow_up_tick, h1, h2, h3, hm]

/-- Claim C3 witness: at time 100 from a fresh session timed at 0, a CPR
scenario at critical severity fires a follow-up, while the same tick at
minor severity stays silent. -/
theorem cpr_critical_follow_up_fires_minor_does_not_witness :
    ((follow_up_tick 100
        { initState with scenario_state := "CPR", scenario_severity := "critical" }).2 =
      [RtEvent.itemCreateUserText
        (build_follow_up_prompt
          { initState with scenario_state := "CPR", scenario_severity := "critical" }
          (toString ((100 : Nat) - initState.last_user_speech_time) ++ "s")),
       RtEvent.responseCreate])
    ∧ (follow_up_tick 100
        { initState with scenario_state := "CPR", scenario_severity := "minor" }).2 = [] :=
  ⟨(cpr_critical_follow_up_fires_minor_does_not 100
      { initState with scenario_state := "CPR", scenario_severity := "critical" }
      rfl rfl rfl (by decide) (by decide)).1 rfl,
   (cpr_critical_follow_up_fires_minor_does_not 100
      { initState with scenario_state := "CPR", scenario_severity := "minor" }
      rfl rfl rfl (by decide) (by decide)).2 rfl⟩

/-- Claim C10: when a set_scenario call omits the scenario argument, the
router defaults it to "none", so the stored scenario state becomes "NONE";
in general the stored scenario state is the upper-cased scenario argument;
and the "NONE" state is inactive — a follow-up tick in it never injects. -/
theorem set_scenario_missing_arg_defaults_to_none :
    (∀ (iosOk : Bool) (s : OrchState) (cid : String) (args : List (String × String)),
        args.find? (fun p => p.1 == "scenario") = none →
        ((handle_tool_call iosOk s ⟨cid, "set_scenario", some args⟩).1).scenario_state
          = "NONE")
    ∧ (∀ (iosOk : Bool) (s : OrchState) (cid : String)
        (args : List (String × String)),
        ((handle_tool_call iosOk s ⟨cid, "set_scenario", some args⟩).1).scenario_state
          = strUpper (argGet args "scenario" "none"))
    ∧ (∀ (now : Nat) (s : OrchState), s.scenario_state = "NONE" →
        (follow_up_tick now s).2 = []) := by
  have hgen : ∀ (iosOk : Bool) (s : OrchState) (cid : String)
      (args : List (String × String)),
      ((handle_tool_call iosOk s ⟨cid, "set_scenario", some args⟩).1).scenario_state
        = strUpper (argGet args "scenario" "none") := by
    intro iosOk s cid args
    simp [handle_tool_call]
  refine ⟨fun iosOk s cid args h => ?_, hgen, fun now s h => ?_⟩
  · rw [hgen iosOk s cid args]
    simp +decide [argGet, h]
  · simp [follow_up_tick, h]

/-- Claim C10 witness: a set_scenario call whose arguments carry only a
severity leaves the scenario defaulted to "none", stored upper-cased as
"NONE", which in turn blocks follow-ups. -/
theorem set_scenario_missing_arg_defaults_to_none_witness :
    ((handle_tool_call true initState
        ⟨"call_1", "set_scenario", some [("severity", "critical")]⟩).1).scenario_state
      = "NONE"
    ∧ ((handle_tool_call true initState
        ⟨"call_1", "set_scenario", some [("severity", "critical")]⟩).1).scenario_state
      = strUpper (argGet [("severity", "critical")] "scenario" "none")
    ∧ (follow_up_tick 100 initState).2 = [] :=
  ⟨set_scenario_missing_arg_defaults_to_none.1 true initState "call_1"
      [("severity", "critical")] (by decide),
   set_scenario_missing_arg_defaults_to_none.2.1 true initState "call_1"
      [("severity", "critical")],
   set_scenario_missing_arg_defaults_to_none.2.2 100 initState rfl⟩

/-- Claim C6: a Scene Analysis tick sends upstream either nothing or a
single conversation.item.create (never a response.create), while a
Follow-up Scheduler tick sends upstream either nothing or exactly a
conversation.item.create immediately followed by one response.create. -/
theorem scene_update_passive_follow_up_requests_response :
    (∀ (iosOk : Bool) (a : String → String → String → Option String)
        (s : OrchState),
        (scene_tick iosOk a s).2.1 = []
        ∨ ∃ obs, (scene_tick iosOk a s).2.1 =
            [RtEvent.itemCreateUserText ("[SCENE UPDATE] " ++ obs)])
    ∧ (∀ (now : Nat) (s : OrchState),
        (follow_up_tick now s).2 = []
        ∨ (follow_up_tick now s).2 =
            [RtEvent.itemCreateUserText
              (build_follow_up_prompt s
                (toString (now - s.last_user_speech_time) ++ "s")),
             RtEvent.responseCreate]) := by
  constructor
  · intro iosOk a s
    unfold scene_tick
    repeat' split
    all_goals first
      | exact Or.inl rfl
      | exact Or.inr ⟨_, rfl⟩
  · intro now s
    simp only [follow_up_tick]
    repeat' split
    all_goals first
      | exact Or.inl rfl
      | exact Or.inr rfl

/-- A Scene Analysis tick never changes the follow-up counter. -/
theorem scene_tick_follow_up_count (iosOk : Bool)
    (a : String → String → String → Option String) (s : OrchState) :
    (scene_tick iosOk a s).1.follow_up_count = s.follow_up_count := by
  unfold scene_tick
  repeat' split
  all_goals rfl

/-- A Follow-up Scheduler tick either keeps the counter or, when it was
strictly below 3, increments it by one. -/
theorem follow_up_tick_count_step (now : Nat) (s : OrchState) :
    (follow_up_tick now s).1.follow_up_count = s.follow_up_count
    ∨ ((follow_up_tick now s).1.follow_up_count = s.follow_up_count + 1
        ∧ s.follow_up_count < 3) := by
  simp only [follow_up_tick]
  repeat' split
  all_goals first
    | exact Or.inl rfl
    | (rename_i hge _ _; exact Or.inr ⟨rfl, by omega⟩)

/-- The Tool Call Router never changes the follow-up counter. -/
theorem handle_tool_call_follow_up_count (iosOk : Bool) (s : OrchState)
    (item : ToolCallItem) :
    (handle_tool_call iosOk s item).1.follow_up_count = s.follow_up_count := by
  unfold handle_tool_call
  split
  all_goals rfl

/-- One event of the Upstream Event Relay either keeps the follow-up
counter or resets it to zero. -/
theorem process_event_follow_up_count (iosOk : Bool) (now : Nat)
    (s : OrchState) (e : RtInEvent) :
    (process_event iosOk now s e).1.follow_up_count = s.follow_up_count
    ∨ (process_event iosOk now s e).1.follow_up_count = 0 := by
  cases e with
  | audioTranscriptDone =>
    simp only [process_event]
    split
    all_goals exact Or.inl rfl
  | outputItemDone item =>
    cases item with
    | none => exact Or.inl rfl
    | some tc => exact Or.inl (handle_tool_call_follow_up_count iosOk s tc)
  | inputAudioTranscriptionCompleted t => exact Or.inr rfl
  | speechStarted => exact Or.inr rfl
  | _ => exact Or.inl rfl

/-- Every single scheduling step of the session keeps the follow-up
counter at most 3. -/
theorem stepState_preserves_follow_up_le (s : OrchState) (a : OrchAction)
    (h : s.follow_up_count ≤ 3) : (stepState s a).follow_up_count ≤ 3 := by
  cases a with
  | clientMsg m => cases m <;> simpa [stepState, ios_handle] using h
  | upstreamEvent iosOk now e =>
    rcases process_event_follow_up_count iosOk now s e with he | he <;>
      simp [stepState, he, h]
  | sceneTick iosOk a => simpa [stepState, scene_tick_follow_up_count] using h
  | followUpTick now =>
    rcases follow_up_tick_count_step now s with he | ⟨he, hlt⟩ <;>
      simp [stepState, he] <;> omega

/-- Claim C5: in every reachable session state the follow-up counter lies
between 0 and 3; both user-speech events (a completed user transcription
and a speech-started barge-in) reset it to 0; and the reset is idempotent:
resetting an already-zero counter leaves the session state unchanged. -/
theorem follow_up_count_invariant :
    (∀ s : OrchState, Reachable s → s.follow_up_count ≤ 3)
    ∧ (∀ (iosOk : Bool) (now : Nat) (s : OrchState) (t : String),
        ((process_event iosOk now s
            (RtInEvent.inputAudioTranscriptionCompleted t)).1).follow_up_count = 0)
    ∧ (∀ (iosOk : Bool) (now : Nat) (s : OrchState),
        ((process_event iosOk now s RtInEvent.speechStarted).1).follow_up_count = 0)
    ∧ (∀ s : OrchState, s.follow_up_count = 0 →
        { s with follow_up_count := 0 } = s) := by
  refine ⟨fun s hs => ?_, fun iosOk now s t => rfl, fun iosOk now s => rfl,
    fun s h => ?_⟩
  · induction hs with
    | start => decide
    | next a _ ih => exact stepState_preserves_follow_up_le _ a ih
  · cases s
    simp_all

/-- Claim C5 witness: the initial state satisfies the bound, a concrete
transcription and barge-in reset the counter, and the reset at a zero
counter is the identity. -/
theorem follow_up_count_invariant_witness :
    initState.follow_up_count ≤ 3
    ∧ ((process_event true 7 initState
        (RtInEvent.inputAudioTranscriptionCompleted "hello")).1).follow_up_count = 0
    ∧ ((process_event true 7 initState RtInEvent.speechStarted).1).follow_up_count = 0
    ∧ { initState with follow_up_count := 0 } = initState :=
  ⟨follow_up_count_invariant.1 initState Reachable.start,
   follow_up_count_invariant.2.1 true 7 initState "hello",
   follow_up_count_invariant.2.2.1 true 7 initState,
   follow_up_count_invariant.2.2.2 initState rfl⟩

/-- A Scene Analysis tick either skips (leaving state and channels
untouched) or injects an observation that is dissimilar from the stored
previous one, storing it. -/
theorem scene_tick_cases (iosOk : Bool)
    (a : String → String → String → Option String) (s : OrchState) :
    scene_tick iosOk a s = (s, [], [])
    ∨ ∃ obs, is_similar obs s.last_scene_observation = false
        ∧ scene_tick iosOk a s =
          ({ s with last_scene_observation := obs },
           [RtEvent.itemCreateUserText ("[SCENE UPDATE] " ++ obs)],
           send_ios iosOk (IosMsg.sceneUpdate obs)) := by
  unfold scene_tick
  repeat' split
  all_goals first
    | exact Or.inl rfl
    | (refine Or.inr ⟨_, ?_, rfl⟩; simp_all)

/-- Consecutive observations injected by a run of Scene Analysis ticks are
never similar, starting from the stored previous observation. -/
theorem scene_run_adjacent_dissimilar (iosOk : Bool) (s : OrchState)
    (analyzes : List (String → String → String → Option String)) :
    List.Chain' (fun a b => is_similar b a = false)
      (s.last_scene_observation :: (scene_run iosOk s analyzes).2) := by
  induction analyzes generalizing s with
  | nil => simp [scene_run]
  | cons a rest ih =>
    rcases scene_tick_cases iosOk a s with h | ⟨obs, hsim, h⟩
    · simp only [scene_run]
      rw [h]
      simpa using ih s
    · simp only [scene_run]
      rw [h]
      simp only [List.cons_append, List.nil_append]
      refine List.chain'_cons.mpr ⟨hsim, ?_⟩
      simpa using ih { s with last_scene_observation := obs }

/-- Claim C4 counterexample: with a frame buffered and no response in
progress, the analysis results AAAA, BBBB, AAAA are all three injected
upstream — the first and third have identical first-50 normalized
characters, so two observations with identical normalization both reach
the upstream channel (deduplication only compares against the immediately
previous injected observation). -/
theorem scene_dedup_not_global_counterexample :
    (scene_run true { initState with latest_frame_b64 := some "f" }
        [fun _ _ _ => some "AAAA", fun _ _ _ => some "BBBB",
         fun _ _ _ => some "AAAA"]).2 = ["AAAA", "BBBB", "AAAA"]
    ∧ (["AAAA", "BBBB", "AAAA"].count "AAAA" = 2)
    ∧ strStrip (strLower (strTake 50 "AAAA"))
        = strStrip (strLower (strTake 50 "AAAA")) := by
  exact ⟨by decide, by decide, rfl⟩

/-- Claim C4 amended: an observation whose first 50 characters
(case-insensitive, trimmed) match the PREVIOUS injected observation is
skipped as a duplicate, so no two consecutively injected observations
share that normalization; the guarantee is relative to the immediately
previous injected observation only, not global over the session. -/
theorem scene_dedup_skips_match_of_previous :
    (∀ (iosOk : Bool) (a : String → String → String → Option String)
        (s : OrchState) (obs : String),
        a (s.latest_frame_b64.getD "") s.scenario_state s.recent_user_transcript
            = some obs →
        is_similar obs s.last_scene_observation = true →
        scene_tick iosOk a s = (s, [], []))
    ∧ (∀ (iosOk : Bool) (s : OrchState)
        (analyzes : List (String → String → String → Option String)),
        List.Chain' (fun a b => is_similar b a = false)
          (s.last_scene_observation :: (scene_run iosOk s analyzes).2)) := by
  constructor
  · intro iosOk a s obs ha hsim
    unfold scene_tick
    rw [ha]
    simp [hsim, ite_self]
  · intro iosOk s analyzes
    exact scene_run_adjacent_dissimilar iosOk s analyzes

/-- Claim C4 amended witness: a duplicate of the stored previous
observation is skipped on a concrete state, and the dissimilarity chain
holds on a concrete run. -/
theorem scene_dedup_skips_match_of_previous_witness :
    scene_tick true (fun _ _ _ => some "AAAA")
      { initState with latest_frame_b64 := some "f", last_scene_observation := "aaaa" }
      = ({ initState with latest_frame_b64 := some "f", last_scene_observation := "aaaa" },
         [], [])
    ∧ List.Chain' (fun a b => is_similar b a = false)
        (initState.last_scene_observation ::
          (scene_run true initState [fun _ _ _ => some "AAAA"]).2) :=
  ⟨scene_dedup_skips_match_of_previous.1 true _ _ "AAAA" rfl (by decide),
   scene_dedup_skips_match_of_previous.2 true initState [fun _ _ _ => some "AAAA"]⟩
